import Mathlib

/-!
Shallow embedding of `lightbulb/commands/options.py` (hikari-lightbulb):
the option declaration / schema-materialization / value-binding mechanism.

Modelling conventions:
* `hikari.UndefinedOr[T]` is the two-state sentinel type `UOr T`
  (`undefined` embeds the `hikari.UNDEFINED` singleton; `val a` a present
  value).  An "explicit None" default is `UOr.val Option.none` at
  `D := Option _`, matching Python's `UndefinedNoneOr[D]`.
* Python `dict[Snowflake, X]` becomes an association list with first-match
  lookup (`dictGet`); snowflake ids are `Nat`.
* The fields typed `t.Any` in the source (`choices`, `autocomplete`,
  `localizations`) stay opaque: they are type parameters `C`, `A`, `L` of
  `OptionData`, passed through untouched exactly as the source does.
* `Union[int, float]` valued fields (`min_value`/`max_value`) use `PyNum`;
  floats are represented by rationals (only the literal values matter here,
  no float arithmetic occurs in this module).
-/

namespace Lightbulb

/-- Two-state `hikari.UndefinedOr[T]`: either the `hikari.UNDEFINED` sentinel
or a present value. -/
inductive UOr (α : Type) where
  | undefined : UOr α
  | val (a : α) : UOr α
deriving DecidableEq, Repr

/-- Embeds the Python identity test `x is not hikari.UNDEFINED`. -/
def UOr.isNotUndefined : UOr α → Bool
  | .undefined => false
  | .val _ => true

/-- Functorial action on the present value; `undefined` is preserved.  Used to
embed Python's implicit `int ⊆ Union[int, float]` when a typed constructor
stores an `int` bound into the `Union`-typed `min_value`/`max_value` field. -/
def UOr.map (f : α → β) : UOr α → UOr β
  | .undefined => .undefined
  | .val a => .val (f a)

/-- `hikari.OptionType` enumeration (wire schema vocabulary). -/
inductive OptionType where
  | SUB_COMMAND | SUB_COMMAND_GROUP | STRING | INTEGER | BOOLEAN
  | USER | CHANNEL | ROLE | MENTIONABLE | FLOAT | ATTACHMENT
deriving DecidableEq, Repr

/-- `hikari.ChannelType` values are opaque to this module; only their
presence/absence matters. -/
abbrev ChannelType := Nat

/-- A Python `Union[int, float]` value. Floats carry a rational denotation;
this module never computes with them, it only stores and forwards them. -/
inductive PyNum where
  | int (n : Int) : PyNum
  | float (q : ℚ) : PyNum
deriving DecidableEq, Repr

/-- `_non_undefined_or(item, default)`: `item if item is not hikari.UNDEFINED
else default`.  The Python helper is polymorphic in the default, but every
call site in this module passes `None`, so the embedding types the default as
`Option T` (`None` is `none`). -/
def _non_undefined_or (item : UOr T) (dflt : Option T) : Option T :=
  match item with
  | .undefined => dflt
  | .val a => some a

/-- `hikari.CommandOption`: the external wire-schema fragment that
`OptionData.to_command_option` builds.  Fields not set by this module are
omitted.  `C` is the opaque type of the `choices` payload. -/
structure CommandOption (C : Type) where
  type : OptionType
  name : String
  description : String
  is_required : Bool
  choices : Option C
  channel_types : Option (List ChannelType)
  min_value : Option PyNum
  max_value : Option PyNum
  min_length : Option Int
  max_length : Option Int
  autocomplete : Bool
deriving DecidableEq, Repr

/-- `OptionData` (attrs frozen class): immutable record describing one
parameter's wire-level shape.  `D` is the default's type, `C`/`A`/`L` the
opaque payload types of `choices`/`autocomplete`/`localizations`. -/
structure OptionData (D C A L : Type) where
  type : OptionType
  name : String
  description : String
  default : UOr D := .undefined
  choices : UOr C := .undefined
  channel_types : UOr (List ChannelType) := .undefined
  min_value : UOr PyNum := .undefined
  max_value : UOr PyNum := .undefined
  min_length : UOr Int := .undefined
  max_length : UOr Int := .undefined
  autocomplete : UOr A := .undefined
  localizations : UOr L := .undefined
deriving DecidableEq, Repr

/-- `OptionData.to_command_option` — direct transcription of the source:
`is_required=self.default is not hikari.UNDEFINED`,
`autocomplete=self.autocomplete is not hikari.UNDEFINED`, the six optional
constraint fields through `_non_undefined_or(_, None)`. -/
def OptionData.to_command_option (self : OptionData D C A L) : CommandOption C :=
  { type := self.type
    name := self.name
    description := self.description
    is_required := self.default.isNotUndefined
    choices := _non_undefined_or self.choices none
    channel_types := _non_undefined_or self.channel_types none
    min_value := _non_undefined_or self.min_value none
    max_value := _non_undefined_or self.max_value none
    min_length := _non_undefined_or self.min_length none
    max_length := _non_undefined_or self.max_length none
    autocomplete := self.autocomplete.isNotUndefined }

/-- Class `Option` (the descriptor): wraps an `OptionData` plus the value
returned when read with no bound invocation.  `T` is the declared value type,
`D` the default's type. -/
structure OptionDescr (T D C A L : Type) where
  data : OptionData D C A L
  unbound_default : T
deriving DecidableEq, Repr

/-- A command instance's binding surface: the nullable
`instance._current_context` slot (the back-reference `instance._` to the
framework object is modelled by passing its `resolve_option` method to
`OptionDescr.get` explicitly). -/
structure CommandInstance (Ctx : Type) where
  _current_context : Option Ctx
deriving DecidableEq, Repr

/-- `Option.__get__` — the two-mode accessor.  `instance = none` is a
class-level read (Python `instance is None`); a present instance with
`_current_context = none` is an unbound instance read; otherwise the read
delegates to `resolve_option(instance._current_context, self)`.

The resolver stands for `instance._.resolve_option`: an effectful external
call, embedded as a state-passing fallible function `σ → Except E R × σ`
(the state threads whatever side effects the framework performs).  The
`owner` parameter of `__get__` is unused by the source and omitted. -/
def OptionDescr.get {Ctx σ E R : Type}
    (resolve_option : Ctx → OptionDescr T D C A L → σ → Except E R × σ)
    (self : OptionDescr T D C A L)
    (inst : Option (CommandInstance Ctx)) (s : σ) :
    Except E (T ⊕ R) × σ :=
  match inst with
  | none => (Except.ok (Sum.inl self.unbound_default), s)
  | some i =>
    match i._current_context with
    | none => (Except.ok (Sum.inl self.unbound_default), s)
    | some ctx =>
      match resolve_option ctx self s with
      | (Except.ok v, s2) => (Except.ok (Sum.inr v), s2)
      | (Except.error e, s2) => (Except.error e, s2)

/-- A stub resolver that records each call it receives and returns
`f ctx descr`, never failing: used to observe how many times, and with what
arguments, `OptionDescr.get` invokes resolution. -/
def recordingResolver {Ctx : Type} (f : Ctx → OptionDescr T D C A L → R) :
    Ctx → OptionDescr T D C A L → List (Ctx × OptionDescr T D C A L) →
      Except Empty R × List (Ctx × OptionDescr T D C A L) :=
  fun ctx descr log => (Except.ok (f ctx descr), log ++ [(ctx, descr)])

/-- The typed constructor `string`: builds a STRING `OptionData` and wraps it
with unbound fallback `""`.  (The source's `t.cast(str, ...)` is a static-type
illusion only; the runtime value is the descriptor.) -/
def string (name description : String)
    (default : UOr (Option D) := .undefined)
    (choices : UOr C := .undefined)
    (min_length : UOr Int := .undefined)
    (max_length : UOr Int := .undefined)
    (autocomplete : UOr A := .undefined) :
    OptionDescr String (Option D) C A L :=
  { data :=
      { type := OptionType.STRING
        name := name
        description := description
        default := default
        choices := choices
        min_length := min_length
        max_length := max_length
        autocomplete := autocomplete }
    unbound_default := "" }

/-- The typed constructor `integer`: INTEGER kind, unbound fallback `0`. -/
def integer (name description : String)
    (default : UOr (Option D) := .undefined)
    (choices : UOr C := .undefined)
    (min_value : UOr Int := .undefined)
    (max_value : UOr Int := .undefined)
    (autocomplete : UOr A := .undefined) :
    OptionDescr Int (Option D) C A L :=
  { data :=
      { type := OptionType.INTEGER
        name := name
        description := description
        default := default
        choices := choices
        min_value := min_value.map PyNum.int
        max_value := max_value.map PyNum.int
        autocomplete := autocomplete }
    unbound_default := 0 }

/-- The typed constructor `boolean`: BOOLEAN kind, unbound fallback `False`. -/
def boolean (name description : String)
    (default : UOr (Option D) := .undefined) :
    OptionDescr Bool (Option D) C A L :=
  { data :=
      { type := OptionType.BOOLEAN
        name := name
        description := description
        default := default }
    unbound_default := false }

/-- The typed constructor `number`: FLOAT kind, unbound fallback `0.0`. -/
def number (name description : String)
    (default : UOr (Option D) := .undefined)
    (choices : UOr C := .undefined)
    (min_value : UOr ℚ := .undefined)
    (max_value : UOr ℚ := .undefined)
    (autocomplete : UOr A := .undefined) :
    OptionDescr ℚ (Option D) C A L :=
  { data :=
      { type := OptionType.FLOAT
        name := name
        description := description
        default := default
        choices := choices
        min_value := min_value.map PyNum.float
        max_value := max_value.map PyNum.float
        autocomplete := autocomplete }
    unbound_default := 0 }

/-! ### Context-menu option machinery

The declared logical type of a context-menu option is a Python class object,
tested by identity (`type is hikari.User`).  `PyType` models the relevant
class objects: `hikari.User` itself, `hikari.Message` itself, and a proper
subclass of `hikari.User` (which fails the identity test). -/

/-- A Python class object usable as a `ContextMenuOption` type argument. -/
inductive PyType where
  | user : PyType
  | message : PyType
  | userSub (n : Nat) : PyType
deriving DecidableEq, Repr

/-- The identity test `type is hikari.User`. -/
def PyType.isUserClass : PyType → Bool
  | .user => true
  | _ => false

/-- A user-like entity (`hikari.User`, including `hikari.InteractionMember`
values, which subclass it).  Modelled from the spec: `utils.EMPTY_USER` is a
sentinel "empty user" value (module `lightbulb.utils` is not part of the
given sources), distinct from any resolved entity. -/
inductive UserE where
  | emptyUser : UserE
  | entity (n : Nat) : UserE
deriving DecidableEq, Repr

/-- A `hikari.Message` entity.  Modelled from the spec: `utils.EMPTY_MESSAGE`
is a sentinel "empty message" value (module `lightbulb.utils` is not part of
the given sources), distinct from any resolved entity. -/
inductive MessageE where
  | emptyMessage : MessageE
  | entity (n : Nat) : MessageE
deriving DecidableEq, Repr

/-- `CtxMenuOptionReturnT = Union[hikari.User, hikari.Message]`. -/
inductive CtxValue where
  | user (u : UserE) : CtxValue
  | msg (m : MessageE) : CtxValue
deriving DecidableEq, Repr

/-- Discord snowflake identifier. -/
abbrev Snowflake := Nat

/-- Python `dict.get`: association-list lookup, `none` on a missing key. -/
def dictGet (m : List (Snowflake × α)) (k : Snowflake) : Option α :=
  match m with
  | [] => none
  | (k2, v) :: rest => if k2 = k then some v else dictGet rest k

/-- Python `a or b` at `Optional` operands: hikari entities define no
`__bool__`/`__len__`, so a present entity is always truthy and `None` is the
only falsy case. -/
def pyOr (a b : Option α) : Option α :=
  match a with
  | some x => some x
  | none => b

/-- `interaction.resolved`: the invocation's pre-resolved entity tables. -/
structure ResolvedData where
  members : List (Snowflake × UserE)
  users : List (Snowflake × UserE)
  messages : List (Snowflake × MessageE)
deriving DecidableEq, Repr

/-- The slice of the interaction consumed by `ContextMenuOption.__get__`:
both fields are `Optional` upstream and asserted non-`None` in the source. -/
structure Interaction where
  resolved : Option ResolvedData
  target_id : Option Snowflake
deriving DecidableEq, Repr

/-- The invocation context as seen by `ContextMenuOption.__get__`. -/
structure CtxMenuContext where
  interaction : Interaction
deriving DecidableEq, Repr

/-- Class `ContextMenuOption(Option[CtxMenuOptionReturnT,
CtxMenuOptionReturnT])`: the inherited `data`/`unbound_default` slots plus
the declared logical type `_type`. -/
structure ContextMenuOption (C A L : Type) where
  type : PyType
  data : OptionData CtxValue C A L
  unbound_default : CtxValue
deriving DecidableEq, Repr

/-- `ContextMenuOption.__init__(type)`: stores the type, builds the fixed
`OptionData(type=STRING, name="target", description="target")` (all other
fields left at their `UNDEFINED` defaults), and picks the unbound fallback by
the identity test `type is hikari.User`. -/
def ContextMenuOption.init (type : PyType) : ContextMenuOption C A L :=
  { type := type
    data :=
      { type := OptionType.STRING
        name := "target"
        description := "target" }
    unbound_default :=
      if type.isUserClass then CtxValue.user UserE.emptyUser
      else CtxValue.msg MessageE.emptyMessage }

/-- `ContextMenuOption.__get__` — overrides the resolution path: unbound
reads return the sentinel fallback; bound reads consult the interaction's
resolved-entity tables directly.  Failed `assert` statements surface as
`Except.error` carrying the assertion's description. -/
def ContextMenuOption.get (self : ContextMenuOption C A L)
    (inst : Option (CommandInstance CtxMenuContext)) :
    Except String CtxValue :=
  match inst with
  | none => Except.ok self.unbound_default
  | some i =>
    match i._current_context with
    | none => Except.ok self.unbound_default
    | some ctx =>
      match ctx.interaction.resolved with
      | none => Except.error "assert failed: resolved is not None"
      | some resolved =>
        match ctx.interaction.target_id with
        | none => Except.error "assert failed: target_id is not None"
        | some tid =>
          if self.type.isUserClass then
            match pyOr (dictGet resolved.members tid) (dictGet resolved.users tid) with
            | some u => Except.ok (CtxValue.user u)
            | none => Except.error "assert failed: isinstance(user, hikari.User)"
          else
            match dictGet resolved.messages tid with
            | some m => Except.ok (CtxValue.msg m)
            | none => Except.error "assert failed: isinstance(message, hikari.Message)"

/-- Shorthand for a command instance bound to an invocation whose
interaction carries resolved tables `r` and target id `tid`. -/
def boundCtxInstance (r : ResolvedData) (tid : Snowflake) :
    Option (CommandInstance CtxMenuContext) :=
  some { _current_context := some { interaction := { resolved := some r, target_id := some tid } } }

/-- A concrete descriptor used to exercise the binding protocol on closed
inputs. -/
def sampleDescr : OptionDescr Nat Nat Nat Nat Nat :=
  { data := { type := OptionType.STRING, name := "x", description := "y" }
    unbound_default := 9 }

/-- A concrete `OptionData` with a mix of present and unset tri-state fields,
used to evaluate schema materialization on closed inputs. -/
def sampleData : OptionData Nat Nat Nat Nat :=
  { type := OptionType.STRING
    name := "n"
    description := "d"
    default := UOr.undefined
    choices := UOr.val 3
    channel_types := UOr.undefined
    min_value := UOr.val (PyNum.int 1)
    max_value := UOr.undefined
    min_length := UOr.val 2
    max_length := UOr.undefined
    autocomplete := UOr.val 1
    localizations := UOr.undefined }

/-! ### Claims -/

/-- Claim C1 (refuted; evaluation of the code at the failing inputs): the
source computes `is_required = (default is not UNDEFINED)`, so an
`OptionData` whose `default` is unset materializes with `is_required =
false`, and one whose `default` is an explicit `None` materializes with
`is_required = true` — the exact opposite of the specified invariant
"required iff default unset".  Upstream semantics (a default makes an option
optional) shows the comparison in the code is inverted. -/
theorem is_required_inverted_on_code :
    (({ type := OptionType.STRING, name := "n", description := "d" } :
        OptionData (Option Nat) Nat Nat Nat).to_command_option.is_required = false) ∧
    (({ type := OptionType.STRING, name := "n", description := "d",
        default := UOr.val none } :
        OptionData (Option Nat) Nat Nat Nat).to_command_option.is_required = true) :=
  ⟨rfl, rfl⟩

/-- Claim C2 (evaluation of the code at the claimed input): materializing
`integer("age","desc",min_value=0,max_value=120)` yields kind INTEGER, name
"age", min_value 0, max_value 120, and absent choices/channel kinds exactly
as claimed — but `is_required = false`, not `true`, because of the inverted
`is_required` computation (see C1). -/
theorem integer_age_roundtrip_eval :
    (integer "age" "desc" UOr.undefined UOr.undefined (UOr.val 0) (UOr.val 120)
        UOr.undefined :
      OptionDescr Int (Option Nat) Nat Nat Nat).data.to_command_option =
    { type := OptionType.INTEGER
      name := "age"
      description := "desc"
      is_required := false
      choices := none
      channel_types := none
      min_value := some (PyNum.int 0)
      max_value := some (PyNum.int 120)
      min_length := none
      max_length := none
      autocomplete := false } :=
  rfl

/-- Claim C3: for a context-menu descriptor declared with logical type
`hikari.User`, read through an instance bound to an invocation whose
interaction carries resolved tables `r` and target id `tid`: if the members
table contains `tid ↦ M`, resolution returns `M` regardless of what the
users table holds (member precedence); if the members table misses and the
users table contains `tid ↦ U`, resolution returns `U`. -/
theorem ctxMenu_user_member_precedence
    (self : ContextMenuOption C A L) (r : ResolvedData) (tid : Snowflake)
    (M U : UserE) (hty : self.type = PyType.user) :
    (dictGet r.members tid = some M →
      self.get (boundCtxInstance r tid) =
        Except.ok (CtxValue.user M)) ∧
    (dictGet r.members tid = none → dictGet r.users tid = some U →
      self.get (boundCtxInstance r tid) =
        Except.ok (CtxValue.user U)) := by
  constructor
  · intro hm
    simp [ContextMenuOption.get, boundCtxInstance, hty, PyType.isUserClass, pyOr, hm]
  · intro hm hu
    simp [ContextMenuOption.get, boundCtxInstance, hty, PyType.isUserClass, pyOr, hm, hu]

/-- Claim C3 witness: concrete member-precedence and user-fallback reads. -/
theorem ctxMenu_user_member_precedence_witness :
    ((ContextMenuOption.init PyType.user : ContextMenuOption Nat Nat Nat).get
      (boundCtxInstance ⟨[(5, UserE.entity 1)], [(5, UserE.entity 2)], []⟩ 5) =
      Except.ok (CtxValue.user (UserE.entity 1))) ∧
    ((ContextMenuOption.init PyType.user : ContextMenuOption Nat Nat Nat).get
      (boundCtxInstance ⟨[], [(5, UserE.entity 2)], []⟩ 5) =
      Except.ok (CtxValue.user (UserE.entity 2))) :=
  ⟨(ctxMenu_user_member_precedence (ContextMenuOption.init PyType.user)
      ⟨[(5, UserE.entity 1)], [(5, UserE.entity 2)], []⟩ 5
      (UserE.entity 1) (UserE.entity 2) rfl).1 (by decide),
   (ctxMenu_user_member_precedence (ContextMenuOption.init PyType.user)
      ⟨[], [(5, UserE.entity 2)], []⟩ 5
      (UserE.entity 1) (UserE.entity 2) rfl).2 (by decide) (by decide)⟩

/-- Claim C4: for a context-menu descriptor declared with logical type
`hikari.Message`, read through a bound instance: a hit `tid ↦ X` in the
resolved messages table returns `X`; a miss aborts the read with the failed
assertion (an `Except.error`), never the sentinel fallback. -/
theorem ctxMenu_message_resolution
    (self : ContextMenuOption C A L) (r : ResolvedData) (tid : Snowflake)
    (X : MessageE) (hty : self.type = PyType.message) :
    (dictGet r.messages tid = some X →
      self.get (boundCtxInstance r tid) =
        Except.ok (CtxValue.msg X)) ∧
    (dictGet r.messages tid = none →
      self.get (boundCtxInstance r tid) =
        Except.error "assert failed: isinstance(message, hikari.Message)") := by
  constructor
  · intro hm
    simp [ContextMenuOption.get, boundCtxInstance, hty, PyType.isUserClass, hm]
  · intro hm
    simp [ContextMenuOption.get, boundCtxInstance, hty, PyType.isUserClass, hm]

/-- Claim C4 witness: concrete message hit and fatal miss. -/
theorem ctxMenu_message_resolution_witness :
    ((ContextMenuOption.init PyType.message : ContextMenuOption Nat Nat Nat).get
      (boundCtxInstance ⟨[], [], [(7, MessageE.entity 3)]⟩ 7) =
      Except.ok (CtxValue.msg (MessageE.entity 3))) ∧
    ((ContextMenuOption.init PyType.message : ContextMenuOption Nat Nat Nat).get
      (boundCtxInstance ⟨[], [], []⟩ 7) =
      Except.error "assert failed: isinstance(message, hikari.Message)") :=
  ⟨(ctxMenu_message_resolution (ContextMenuOption.init PyType.message)
      ⟨[], [], [(7, MessageE.entity 3)]⟩ 7 (MessageE.entity 3) rfl).1 (by decide),
   (ctxMenu_message_resolution (ContextMenuOption.init PyType.message)
      ⟨[], [], []⟩ 7 (MessageE.entity 3) rfl).2 (by decide)⟩


/-- Claim C5: reading an option descriptor through an instance with a bound
invocation context calls the resolver exactly once, with exactly that
context and that descriptor (one call record appended), and returns the
resolver's result unchanged: an `ok v` comes back as the resolved value `v`
and an `error e` propagates unmodified, with whatever state the resolver
left behind. -/
theorem option_get_delegates_to_resolver
    {Ctx σ E R T D C A L : Type}
    (f : Ctx → OptionDescr T D C A L → R)
    (res : Ctx → OptionDescr T D C A L → σ → Except E R × σ)
    (self : OptionDescr T D C A L) (ctx : Ctx)
    (log : List (Ctx × OptionDescr T D C A L)) (s s2 : σ) :
    (OptionDescr.get (recordingResolver f) self
        (some { _current_context := some ctx }) log =
      (Except.ok (Sum.inr (f ctx self)), log ++ [(ctx, self)])) ∧
    (∀ v : R, res ctx self s = (Except.ok v, s2) →
      OptionDescr.get res self (some { _current_context := some ctx }) s =
        (Except.ok (Sum.inr v), s2)) ∧
    (∀ e : E, res ctx self s = (Except.error e, s2) →
      OptionDescr.get res self (some { _current_context := some ctx }) s =
        (Except.error e, s2)) := by
  refine ⟨rfl, ?_, ?_⟩
  · intro v h
    simp [OptionDescr.get, h]
  · intro e h
    simp [OptionDescr.get, h]

/-- Claim C5 witness: a recording stub resolver is called once with the
bound context `3` and `sampleDescr`, and a failing resolver's error comes
back unchanged. -/
theorem option_get_delegates_to_resolver_witness :
    (OptionDescr.get
        (recordingResolver (fun (c : Nat) (d : OptionDescr Nat Nat Nat Nat Nat) =>
          c + d.unbound_default))
        sampleDescr (some { _current_context := some 3 }) [] =
      (Except.ok (Sum.inr 12), [(3, sampleDescr)])) ∧
    (OptionDescr.get
        (fun (c : Nat) (_ : OptionDescr Nat Nat Nat Nat Nat) (s : Nat) =>
          ((Except.error (c + s) : Except Nat Nat), s + 1))
        sampleDescr (some { _current_context := some 3 }) 4 =
      (Except.error 7, 5)) :=
  ⟨(option_get_delegates_to_resolver
      (fun (c : Nat) (d : OptionDescr Nat Nat Nat Nat Nat) => c + d.unbound_default)
      (fun (c : Nat) (_ : OptionDescr Nat Nat Nat Nat Nat) (s : Nat) =>
        ((Except.error (c + s) : Except Nat Nat), s + 1))
      sampleDescr 3 [] 4 5).1,
   (option_get_delegates_to_resolver
      (fun (c : Nat) (d : OptionDescr Nat Nat Nat Nat Nat) => c + d.unbound_default)
      (fun (c : Nat) (_ : OptionDescr Nat Nat Nat Nat Nat) (s : Nat) =>
        ((Except.error (c + s) : Except Nat Nat), s + 1))
      sampleDescr 3 [] 4 5).2.2 7 rfl⟩

/-- Claim C6: a class-level read (no instance) and a read through an
instance with no bound invocation both return the unbound fallback, for
every resolver and every state, without failing and without touching the
state (no resolution is attempted); and the typed constructors called with
only a name and description carry the kind-appropriate zero fallback:
`""`, `0`, `false`, `0.0`. -/
theorem unbound_reads_yield_fallback
    {Ctx σ E R T D C A L : Type} (n d2 : String)
    (res : Ctx → OptionDescr T D C A L → σ → Except E R × σ)
    (self : OptionDescr T D C A L) (s : σ) :
    (OptionDescr.get res self none s =
      (Except.ok (Sum.inl self.unbound_default), s)) ∧
    (OptionDescr.get res self (some { _current_context := none }) s =
      (Except.ok (Sum.inl self.unbound_default), s)) ∧
    ((string n d2 : OptionDescr String (Option D) C A L).unbound_default = "") ∧
    ((integer n d2 : OptionDescr Int (Option D) C A L).unbound_default = 0) ∧
    ((boolean n d2 : OptionDescr Bool (Option D) C A L).unbound_default = false) ∧
    ((number n d2 : OptionDescr ℚ (Option D) C A L).unbound_default = 0) :=
  ⟨rfl, rfl, rfl, rfl, rfl, rfl⟩

/-- Claim C7: the `autocomplete` flag of the materialized schema fragment is
a plain boolean that is true exactly when the stored `autocomplete` field is
not unset, and the payload of a present autocomplete configuration never
influences the output: replacing one present payload by another leaves the
whole schema fragment unchanged. -/
theorem autocomplete_presence_flag (od : OptionData D C A L) :
    (od.to_command_option.autocomplete = true ↔ od.autocomplete ≠ UOr.undefined) ∧
    (∀ a b : A,
      ({ od with autocomplete := UOr.val a } : OptionData D C A L).to_command_option =
        ({ od with autocomplete := UOr.val b } : OptionData D C A L).to_command_option) := by
  constructor
  · cases h : od.autocomplete <;>
      simp [OptionData.to_command_option, UOr.isNotUndefined, h]
  · intro a b
    simp [OptionData.to_command_option, UOr.isNotUndefined]

/-- Claim C7 witness: `sampleData` stores a present autocomplete payload, so
its schema flag evaluates to true, and swapping the payload value leaves the
materialized fragment unchanged. -/
theorem autocomplete_presence_flag_witness :
    sampleData.to_command_option.autocomplete = true ∧
    ({ sampleData with autocomplete := UOr.val 5 } : OptionData Nat Nat Nat Nat).to_command_option =
      ({ sampleData with autocomplete := UOr.val 6 } : OptionData Nat Nat Nat Nat).to_command_option :=
  ⟨(autocomplete_presence_flag sampleData).1.mpr (by decide),
   (autocomplete_presence_flag sampleData).2 5 6⟩

/-- Claim C8: `to_command_option` is a pure function of the record (in this
embedding the record is immutable and the function total), so calling it
twice on the same `OptionData` yields structurally equal fragments; and each
tri-state constraint field maps to the absent representation (`none`) when
unset and to its stored value when present. -/
theorem to_command_option_pure_and_maps_tristate (od : OptionData D C A L) :
    (od.to_command_option = od.to_command_option) ∧
    (od.choices = UOr.undefined → od.to_command_option.choices = none) ∧
    (∀ c, od.choices = UOr.val c → od.to_command_option.choices = some c) ∧
    (od.channel_types = UOr.undefined → od.to_command_option.channel_types = none) ∧
    (∀ k, od.channel_types = UOr.val k → od.to_command_option.channel_types = some k) ∧
    (od.min_value = UOr.undefined → od.to_command_option.min_value = none) ∧
    (∀ v, od.min_value = UOr.val v → od.to_command_option.min_value = some v) ∧
    (od.max_value = UOr.undefined → od.to_command_option.max_value = none) ∧
    (∀ v, od.max_value = UOr.val v → od.to_command_option.max_value = some v) ∧
    (od.min_length = UOr.undefined → od.to_command_option.min_length = none) ∧
    (∀ v, od.min_length = UOr.val v → od.to_command_option.min_length = some v) ∧
    (od.max_length = UOr.undefined → od.to_command_option.max_length = none) ∧
    (∀ v, od.max_length = UOr.val v → od.to_command_option.max_length = some v) := by
  refine ⟨rfl, ?_, ?_, ?_, ?_, ?_, ?_, ?_, ?_, ?_, ?_, ?_, ?_⟩ <;>
    intros <;> simp_all [OptionData.to_command_option, _non_undefined_or]

/-- Claim C8 witness: materializing `sampleData` maps its present fields to
their stored values and its unset fields to the absent representation. -/
theorem to_command_option_pure_and_maps_tristate_witness :
    sampleData.to_command_option = sampleData.to_command_option ∧
    sampleData.to_command_option.choices = some 3 ∧
    sampleData.to_command_option.channel_types = none ∧
    sampleData.to_command_option.min_value = some (PyNum.int 1) ∧
    sampleData.to_command_option.max_value = none ∧
    sampleData.to_command_option.min_length = some 2 ∧
    sampleData.to_command_option.max_length = none :=
  ⟨(to_command_option_pure_and_maps_tristate sampleData).1,
   (to_command_option_pure_and_maps_tristate sampleData).2.2.1 3 rfl,
   (to_command_option_pure_and_maps_tristate sampleData).2.2.2.1 rfl,
   (to_command_option_pure_and_maps_tristate sampleData).2.2.2.2.2.2.1 (PyNum.int 1) rfl,
   (to_command_option_pure_and_maps_tristate sampleData).2.2.2.2.2.2.2.1 rfl,
   (to_command_option_pure_and_maps_tristate sampleData).2.2.2.2.2.2.2.2.2.2.1 2 rfl,
   (to_command_option_pure_and_maps_tristate sampleData).2.2.2.2.2.2.2.2.2.2.2.1 rfl⟩

/-- Claim C9: every context-menu descriptor, whatever its declared target
type, wraps the same `OptionData`: kind STRING, name "target", description
"target", default unset, and every constraint field unset — so the User and
Message variants materialize to the same wire schema fragment. -/
theorem ctxMenu_optiondata_fixed {C A L : Type} :
    (∀ ty : PyType, (ContextMenuOption.init ty : ContextMenuOption C A L).data =
      { type := OptionType.STRING
        name := "target"
        description := "target"
        default := UOr.undefined
        choices := UOr.undefined
        channel_types := UOr.undefined
        min_value := UOr.undefined
        max_value := UOr.undefined
        min_length := UOr.undefined
        max_length := UOr.undefined
        autocomplete := UOr.undefined
        localizations := UOr.undefined }) ∧
    ((ContextMenuOption.init PyType.user : ContextMenuOption C A L).data.to_command_option =
      (ContextMenuOption.init PyType.message : ContextMenuOption C A L).data.to_command_option) :=
  ⟨fun _ => rfl, rfl⟩

/-- Claim C10: the unbound fallback of a context-menu descriptor is the
empty-user sentinel exactly when the declared type is the `hikari.User`
class itself; any other declared type — the `hikari.Message` class or a
proper subclass of `hikari.User` — gets the empty-message sentinel, because
the source tests class identity, not subclassing. -/
theorem ctxMenu_fallback_iff_user_class {C A L : Type} (ty : PyType) :
    ((ContextMenuOption.init ty : ContextMenuOption C A L).unbound_default =
        CtxValue.user UserE.emptyUser ↔ ty = PyType.user) ∧
    (ty ≠ PyType.user →
      (ContextMenuOption.init ty : ContextMenuOption C A L).unbound_default =
        CtxValue.msg MessageE.emptyMessage) := by
  cases ty <;> simp [ContextMenuOption.init, PyType.isUserClass]

/-- Claim C10 witness: a proper subclass of `hikari.User` as declared type
yields the empty-message sentinel, while `hikari.User` itself yields the
empty-user sentinel. -/
theorem ctxMenu_fallback_iff_user_class_witness :
    (PyType.userSub 0 ≠ PyType.user) ∧
    ((ContextMenuOption.init (PyType.userSub 0) : ContextMenuOption Nat Nat Nat).unbound_default =
      CtxValue.msg MessageE.emptyMessage) ∧
    ((ContextMenuOption.init PyType.user : ContextMenuOption Nat Nat Nat).unbound_default =
      CtxValue.user UserE.emptyUser) :=
  ⟨by decide,
   (ctxMenu_fallback_iff_user_class (PyType.userSub 0)).2 (by decide),
   (ctxMenu_fallback_iff_user_class PyType.user).1.mpr rfl⟩

end Lightbulb
